import Mathlib

/-!
Verification of the radslice grading and analysis core.

This file shallowly embeds the code of `src/radslice/grading/patterns.py`,
`dimensions.py`, `judge.py`, `grader.py`, `grading/calibration.py`
(`cohens_kappa`), `analysis/calibration_drift.py`, `analysis/saturation.py`
and `analysis/suite_tracker.py` in Lean, and proves or refutes the frozen
claims about that code.

Modelling conventions:
* Python floats are modelled as rationals; all arithmetic in the
  embedded fragments (weights, thresholds, ratios) is exact at these inputs.
* Python's dynamically typed values (JSON-decoded data, grade-log records,
  failure classes that may be a string or `None`) are modelled by the
  inductive type `Json`; Python `None` is `Json.null`.
* Python dicts that always carry a fixed key set in the source are modelled
  as association lists built in the source's insertion order; keys are
  unique by construction.
* `re.search` (the regex engine) is external to the repository; it is passed
  in as an explicit function argument `regexSearch : String → String → Bool`
  (pattern, text).  All theorems hold for every such function.
* File and network I/O (`open`, yaml, provider calls) is external; functions
  that read files are embedded over the already-loaded data.
-/

namespace RadSlice

/-- Universe of Python/JSON values as produced by `json.loads` and stored in
the grade log.  `null` doubles as Python `None`. -/
inductive Json where
  | null : Json
  | bool (b : Bool) : Json
  | num (q : ℚ) : Json
  | str (s : String) : Json
  | arr (xs : List Json) : Json
  | obj (kvs : List (String × Json)) : Json

mutual

/-- Structural equality test on `Json` values (Python `==` on decoded data). -/
def Json.beq : Json → Json → Bool
  | .null, .null => true
  | .bool a, .bool b => a == b
  | .num a, .num b => a == b
  | .str a, .str b => a == b
  | .arr xs, .arr ys => Json.beqList xs ys
  | .obj a, .obj b => Json.beqKvs a b
  | _, _ => false

/-- Elementwise equality of `Json` lists. -/
def Json.beqList : List Json → List Json → Bool
  | [], [] => true
  | x :: xs, y :: ys => Json.beq x y && Json.beqList xs ys
  | _, _ => false

/-- Elementwise equality of `Json` association lists. -/
def Json.beqKvs : List (String × Json) → List (String × Json) → Bool
  | [], [] => true
  | x :: xs, y :: ys => x.1 == y.1 && Json.beq x.2 y.2 && Json.beqKvs xs ys
  | _, _ => false

end

instance : BEq Json := ⟨Json.beq⟩

/-- Python truthiness of a value (`if x:`). -/
def Json.truthy : Json → Bool
  | .null => false
  | .bool b => b
  | .num q => q != 0
  | .str s => s != ""
  | .arr xs => !xs.isEmpty
  | .obj kvs => !kvs.isEmpty

/-- Python `d.get(k, default)` on a dict modelled as an association list
(first binding wins; keys are unique in every dict the code builds). -/
def dictGetD (kvs : List (String × Json)) (k : String) (d : Json) : Json :=
  match kvs.find? (fun kv => kv.1 == k) with
  | some kv => kv.2
  | none => d

/-- Lookup in a `str → float` dict (e.g. dimension-score dicts). -/
def qGet (kvs : List (String × ℚ)) (k : String) : Option ℚ :=
  match kvs.find? (fun kv => kv.1 == k) with
  | some kv => some kv.2
  | none => none

/-- Python `k in d` for a `str → float` dict. -/
def qMem (kvs : List (String × ℚ)) (k : String) : Bool :=
  (qGet kvs k).isSome

/-- Python `d[k] = v` when `k` is already a key: replace the value in place
(keys are unique, so replacing every matching binding is the same). -/
def qSet (kvs : List (String × ℚ)) (k : String) (v : ℚ) : List (String × ℚ) :=
  kvs.map (fun kv => if kv.1 == k then (kv.1, v) else kv)

/-- Prefix test on character lists. -/
def listIsPrefix : List Char → List Char → Bool
  | [], _ => true
  | _ :: _, [] => false
  | a :: as, b :: bs => a == b && listIsPrefix as bs

/-- Substring test on character lists (needle, haystack). -/
def listContainsSub (needle : List Char) : List Char → Bool
  | [] => needle.isEmpty
  | h :: t => listIsPrefix needle (h :: t) || listContainsSub needle t

/-- Python `needle in haystack` on strings: substring containment. -/
def strContains (haystack needle : String) : Bool :=
  listContainsSub needle.data haystack.data

/-- Python `s.lower()`: ASCII-wise this is `Char.toLower` on every
character (the repository's patterns and task data are ASCII). -/
def pyLower (s : String) : String := ⟨s.data.map Char.toLower⟩

/-! ## task.py (the fragment the grading core reads) -/

/-- Kind of a deterministic pattern check.  `task.py` validates
`check_type ∈ {regex, contains, not_contains}`; an unknown kind raises at
authoring time, so only the three valid kinds occur at grading time. -/
inductive CheckKind where
  | regex : CheckKind
  | contains : CheckKind
  | notContains : CheckKind
deriving DecidableEq

/-- `PatternCheck` from `task.py`: a deterministic check from the task YAML. -/
structure PatternCheck where
  name : String
  check_type : CheckKind
  pattern : String
  required : Bool := true
deriving DecidableEq

/-- `PatternCheck.check` from `task.py`.  The regex branch calls Python's
`re.search(pattern, text, re.IGNORECASE)`, an external engine passed in as
`regexSearch`; the two substring branches are embedded exactly. -/
def PatternCheck.check (regexSearch : String → String → Bool)
    (pc : PatternCheck) (text : String) : Bool :=
  match pc.check_type with
  | .regex => regexSearch pc.pattern text
  | .contains => strContains (pyLower text) (pyLower pc.pattern)
  | .notContains => !(strContains (pyLower text) (pyLower pc.pattern))

/-- Ground-truth fields read by the grading core (`grader.py` reads
`laterality` and `negatives`; the remaining fields are only serialized into
the judge prompt, which is external text, and are omitted here). -/
structure GroundTruth where
  laterality : String
  negatives : List String
deriving DecidableEq

/-- The `Task` fields the grading core reads. -/
structure Task where
  id : String
  modality : String
  ground_truth : GroundTruth
  pattern_checks : List PatternCheck
deriving DecidableEq

/-! ## grading/patterns.py -/

/-- `PatternResult` from `patterns.py`. -/
structure PatternResult where
  checks : List (String × Bool)
  required_passed : Nat
  required_total : Nat
  optional_passed : Nat
  optional_total : Nat
  confidence : ℚ
deriving DecidableEq

/-- Property `PatternResult.all_required_pass`. -/
def PatternResult.all_required_pass (r : PatternResult) : Bool :=
  r.required_passed == r.required_total

/-- Property `PatternResult.pass_rate`. -/
def PatternResult.pass_rate (r : PatternResult) : ℚ :=
  let total : ℚ := (r.required_total : ℚ) + (r.optional_total : ℚ)
  if total = 0 then 1
  else (((r.required_passed : ℚ) + (r.optional_passed : ℚ)) / total)

/-- One step of the tally loop in `run_task_patterns`: state is
(checks so far, req_passed, req_total, opt_passed, opt_total). -/
def tallyCheck (regexSearch : String → String → Bool) (response : String)
    (st : List (String × Bool) × Nat × Nat × Nat × Nat) (pc : PatternCheck) :
    List (String × Bool) × Nat × Nat × Nat × Nat :=
  let passed := pc.check regexSearch response
  let checks := st.1 ++ [(pc.name, passed)]
  let rp := st.2.1
  let rt := st.2.2.1
  let op := st.2.2.2.1
  let ot := st.2.2.2.2
  if pc.required then
    (checks, rp + (if passed then 1 else 0), rt + 1, op, ot)
  else
    (checks, rp, rt, op + (if passed then 1 else 0), ot + 1)

/-- The confidence block of `run_task_patterns` (the `if`/`elif` chain over
the four counts, verbatim). -/
def patternConfidence (req_passed req_total opt_passed opt_total : Nat) : ℚ :=
  let total := req_total + opt_total
  if total = 0 then 0
  else if req_total > 0 && req_passed == 0 then 9/10
  else if req_passed == req_total && req_total ≥ 2 then 85/100
  else 1/2 + (3/10) * ((req_passed : ℚ) + (opt_passed : ℚ)) / (total : ℚ)

/-- `run_task_patterns` from `patterns.py`: run every pattern check of the
task against the response, tally required/optional pass counts, and derive
the routing confidence. -/
def run_task_patterns (regexSearch : String → String → Bool)
    (task : Task) (response : String) : PatternResult :=
  let st := task.pattern_checks.foldl (tallyCheck regexSearch response)
    ([], 0, 0, 0, 0)
  { checks := st.1
    required_passed := st.2.1
    required_total := st.2.2.1
    optional_passed := st.2.2.2.1
    optional_total := st.2.2.2.2
    confidence := patternConfidence st.2.1 st.2.2.1 st.2.2.2.1 st.2.2.2.2 }

/-- The modality-specific supplementary pattern tables of `patterns.py`,
as (name, regex-source) pairs; the regexes themselves are external. -/
def MODALITY_PATTERNS : List (String × List (String × String)) :=
  [("xray",
    [("consolidation", "\\b(consolidat|opacit|infiltrat)"),
     ("effusion", "\\b(effusion|fluid|meniscus)"),
     ("pneumothorax", "\\b(pneumothorax|ptx)\\b"),
     ("cardiomegaly", "\\b(cardiomegal|enlarged.heart)"),
     ("fracture", "\\b(fractur|break|discontinuity)"),
     ("nodule", "\\b(nodule|mass|lesion)"),
     ("atelectasis", "\\b(atelectas|collapse)"),
     ("normal", "\\b(normal|unremarkable|no.acute)")]),
   ("ct",
    [("hounsfield", "\\b(hounsfield|HU|density)\\b"),
     ("enhancement", "\\b(enhanc|contrast.uptake)"),
     ("hemorrhage", "\\b(hemorrhag|bleed|hyperdense)"),
     ("mass_effect", "\\b(mass.effect|midline.shift|hernia)"),
     ("lymphadenopathy", "\\b(lymphadenopath|enlarged.node)"),
     ("calcification", "\\b(calcific|calcified)")]),
   ("mri",
    [("t1_signal", "\\bT1[\\s-]*(hyper|hypo|iso|bright|dark|signal)"),
     ("t2_signal", "\\bT2[\\s-]*(hyper|hypo|iso|bright|dark|signal)"),
     ("diffusion_restriction", "\\b(diffusion.restrict|DWI|ADC.?(low|decreas))"),
     ("enhancement", "\\b(enhanc|gadolinium|contrast.uptake)"),
     ("edema", "\\b(edema|oedema|FLAIR.hyperinten)")]),
   ("ultrasound",
    [("echogenicity", "\\b(hyper|hypo|iso|an)echoi?c\\b"),
     ("doppler", "\\b(doppler|flow|vascularity)"),
     ("shadowing", "\\b(shadow|posterior.acoustic)"),
     ("collection", "\\b(collection|fluid|cyst)"),
     ("calculus", "\\b(calcul|stone|lithiasis)")])]

/-- `run_modality_patterns` from `patterns.py`: search every supplementary
pattern of the modality in the response (informational signals only). -/
def run_modality_patterns (regexSearch : String → String → Bool)
    (modality : String) (response : String) : List (String × Bool) :=
  let pats :=
    match MODALITY_PATTERNS.find? (fun kv => kv.1 == modality) with
    | some kv => kv.2
    | none => []
  pats.map (fun np => (np.1, regexSearch np.2 response))

/-- `check_laterality` from `patterns.py`: vacuously true when no laterality
is expected, else case-insensitive substring containment. -/
def check_laterality (response : String) (expected : String) : Bool :=
  if expected == "" then true
  else strContains (pyLower response) (pyLower expected)

/-- `check_negatives` from `patterns.py`: the declared negatives whose
lowercase form occurs in the lowercase response, in declaration order. -/
def check_negatives (response : String) (negatives : List String) :
    List String :=
  negatives.filter (fun neg => strContains (pyLower response) (pyLower neg))

/-! ## grading/dimensions.py -/

/-- The five grading dimensions with their fixed weights (`DIMENSIONS`). -/
def DIMENSIONS : List (String × ℚ) :=
  [("diagnostic_accuracy", 35/100),
   ("finding_detection", 25/100),
   ("anatomic_precision", 15/100),
   ("clinical_relevance", 15/100),
   ("false_positive_control", 10/100)]

/-- `weighted_score` from `dimensions.py`: weight-sum over the dimensions
present in the score dict, normalized by the weight mass present. -/
def weighted_score (dimension_scores : List (String × ℚ)) : ℚ :=
  let acc := DIMENSIONS.foldl
    (fun (tw : ℚ × ℚ) dim =>
      match qGet dimension_scores dim.1 with
      | some v => (tw.1 + dim.2 * v, tw.2 + dim.2)
      | none => tw)
    (0, 0)
  if acc.2 = 0 then 0 else acc.1 / acc.2

/-! ## grading/judge.py

The markdown-fence stripping plus `json.loads` together form the decode step
of `parse_judge_response`; `json.loads` is external library code, so the
decode outcome is passed in as `decoded : Option Json`, with `none` playing
the role of `json.JSONDecodeError` (including fence-wrapped garbage). -/

/-- `JudgeResult` from `judge.py`.  `failure_class` and `reasoning` hold
whatever Python value the decoded JSON supplied (`Json.null` = `None`). -/
structure JudgeResult where
  dimension_scores : List (String × ℚ)
  failure_class : Json
  reasoning : Json
  judge_model : String := ""
  raw_response : String := ""

/-- The fixed `dimension_names` list of `parse_judge_response`. -/
def dimension_names : List String :=
  ["diagnostic_accuracy", "finding_detection", "anatomic_precision",
   "clinical_relevance", "false_positive_control"]

/-- Python `float(val)` on a decoded JSON value.  `Except.error` models an
uncaught `TypeError`/`ValueError` (only `json.JSONDecodeError` is caught in
the source).  Python additionally coerces numeric strings; no theorem below
exercises the string branch, and the inputs of every proof restrict score
values to numbers or absent keys. -/
def pyFloat : Json → Except String ℚ
  | .num q => .ok q
  | .bool b => .ok (if b then 1 else 0)
  | .null => .error "TypeError: float() argument is None"
  | .str _ => .error "ValueError: could not convert string to float"
  | .arr _ => .error "TypeError: float() argument is a list"
  | .obj _ => .error "TypeError: float() argument is a dict"

/-- The failure sentinel returned by `parse_judge_response` on a JSON decode
failure: all five scores 0.0, class E, reasoning explaining the failure. -/
def judgeSentinel (judge_model : String) (raw : String) : JudgeResult :=
  { dimension_scores :=
      [("diagnostic_accuracy", 0), ("finding_detection", 0),
       ("anatomic_precision", 0), ("clinical_relevance", 0),
       ("false_positive_control", 0)]
    failure_class := .str "E"
    reasoning := .str "Judge response was not valid JSON"
    judge_model := judge_model
    raw_response := raw }

/-- The score-extraction loop of `parse_judge_response`: for each dimension
name take `data.get(name, 0.0)`, coerce with `float`, clamp to [0, 1]. -/
def extractScores : List String → List (String × Json) →
    Except String (List (String × ℚ))
  | [], _ => .ok []
  | n :: ns, kvs => do
    let q ← pyFloat (dictGetD kvs n (.num 0))
    let rest ← extractScores ns kvs
    .ok ((n, max 0 (min 1 q)) :: rest)

/-- `parse_judge_response` from `judge.py`, over the decode outcome.
`Except.error` models an exception escaping the function (the `try` only
catches `json.JSONDecodeError`). -/
def parse_judge_response (decoded : Option Json) (judge_model : String)
    (raw : String) : Except String JudgeResult :=
  match decoded with
  | none => .ok (judgeSentinel judge_model raw)
  | some (.obj kvs) => do
    let scores ← extractScores dimension_names kvs
    let fc := dictGetD kvs "failure_class" .null
    let fc :=
      if fc.truthy &&
          !(fc == .str "A" || fc == .str "B" || fc == .str "C" ||
            fc == .str "D" || fc == .str "E") then
        Json.null
      else fc
    .ok { dimension_scores := scores
          failure_class := fc
          reasoning := dictGetD kvs "reasoning" (.str "")
          judge_model := judge_model
          raw_response := raw }
  | some _ => .error "AttributeError: decoded JSON has no attribute get"

/-! ## grading/calibration.py (the fragment drift analysis uses) -/

/-- Distinct values of a list, first occurrences kept (Python
`set(labels_a) | set(labels_b)`; the `sorted` in the source only fixes an
iteration order, and the expected-agreement sum below is order-independent). -/
def distinctJson (l : List Json) : List Json :=
  l.foldl (fun acc x => if acc.any (fun y => x == y) then acc else acc ++ [x]) []

/-- `cohens_kappa` from `grading/calibration.py`.  Labels are Python values
(strings in every reachable call).  The source raises on length mismatch;
every call in the repository passes equal-length lists, and this embedding
is only used at such calls. -/
def cohens_kappa (labels_a labels_b : List Json) : ℚ :=
  let n := labels_a.length
  if n = 0 then 0
  else
    let cats := distinctJson (labels_a ++ labels_b)
    let p_o : ℚ :=
      ((labels_a.zip labels_b).countP (fun ab => ab.1 == ab.2) : ℚ) / (n : ℚ)
    let p_e : ℚ := cats.foldl
      (fun acc c =>
        acc + ((labels_a.count c : ℚ) * (labels_b.count c : ℚ)) / ((n : ℚ) * (n : ℚ)))
      0
    if p_e = 1 then 1 else (p_o - p_e) / (1 - p_e)

/-! ## analysis/calibration_drift.py -/

/-- A grade-log record: one JSON object from `grades.jsonl`. -/
abbrev GradeDict := List (String × Json)

/-- `DriftReport` from `calibration_drift.py`.  `per_modality` maps a
modality to (agreement, kappa); `human_comparison` is always `None` in
`compute_calibration_drift` and is omitted. -/
structure DriftReport where
  layer0_vs_layer2_agreement : ℚ
  layer0_vs_layer2_kappa : ℚ
  per_modality : List (String × ℚ × ℚ)
  drift_detected : Bool
  kappa_threshold : ℚ
  agreement_threshold : ℚ
  total_grades : Nat

/-- String content of a Python value (`task_id` fields are strings in every
grade-log record; a non-string would raise in Python's `split`, a case no
theorem below exercises). -/
def Json.asStr : Json → String
  | .str s => s
  | _ => ""

/-- Characters before the first dash: `task_id.split("-")[0]`. -/
def takeUntilDash : List Char → List Char
  | [] => []
  | c :: cs => if c == '-' then [] else c :: takeUntilDash cs

/-- `_infer_modality` (identical copies in `calibration_drift.py`,
`saturation.py` and `suite_tracker.py`): the task-id segment before the
first dash, lowercased, mapped through `modality_map` with default
"unknown". -/
def infer_modality (task_id : String) : String :=
  let pfx := pyLower (String.mk (takeUntilDash task_id.data))
  if pfx == "xray" then "xray"
  else if pfx == "ct" then "ct"
  else if pfx == "mri" then "mri"
  else if pfx == "us" then "ultrasound"
  else "unknown"

/-- Per-grade step of the comparison loop in `compute_calibration_drift`:
`none` when the grade lacks a truthy `pattern_result` or `judge_result`
(the grade is skipped), else the inferred modality with the derived
Layer-0 and Layer-2 labels.  Grade-log records store these two fields as
objects; a truthy non-object would raise in Python, a case no theorem
below exercises. -/
def driftPair (g : GradeDict) : Option (String × Json × Json) :=
  let pattern_result := dictGetD g "pattern_result" (.obj [])
  let judge_result := dictGetD g "judge_result" (.obj [])
  if !pattern_result.truthy || !judge_result.truthy then none
  else
    let prkvs := match pattern_result with | .obj kvs => kvs | _ => []
    let jrkvs := match judge_result with | .obj kvs => kvs | _ => []
    let l0 : Json :=
      if (dictGetD prkvs "all_required_pass" (.bool false)).truthy then .str "PASS"
      else .str "FAIL"
    let l2_failure := dictGetD jrkvs "failure_class" .null
    let l2 : Json := if l2_failure.truthy then l2_failure else .str "PASS"
    some ((dictGetD g "task_id" (.str "")).asStr |> infer_modality, l0, l2)

/-- One step of the per-modality grouping dict: append the label pair to the
modality's two lists, inserting the modality on first sight. -/
def addModalityPair (acc : List (String × List Json × List Json))
    (p : String × Json × Json) : List (String × List Json × List Json) :=
  if acc.any (fun kv => kv.1 == p.1) then
    acc.map (fun kv =>
      if kv.1 == p.1 then (kv.1, kv.2.1 ++ [p.2.1], kv.2.2 ++ [p.2.2]) else kv)
  else acc ++ [(p.1, [p.2.1], [p.2.2])]

/-- The tail of `compute_calibration_drift` after the comparison loop:
build the report from the extracted label pairs and the (filtered) grade
count.  Split out of `compute_calibration_drift` purely for reuse in
proofs; the computation is the source's, line for line. -/
def driftFromPairs (pairs : List (String × Json × Json)) (n : Nat)
    (kappa_threshold agreement_threshold : ℚ) : DriftReport :=
  let layer0_labels := pairs.map (fun p => p.2.1)
  let layer2_labels := pairs.map (fun p => p.2.2)
  if layer0_labels.isEmpty then
    { layer0_vs_layer2_agreement := 0
      layer0_vs_layer2_kappa := 0
      per_modality := []
      drift_detected := false
      kappa_threshold := kappa_threshold
      agreement_threshold := agreement_threshold
      total_grades := n }
  else
    let agreement : ℚ :=
      ((layer0_labels.zip layer2_labels).countP (fun ab => ab.1 == ab.2) : ℚ) /
        (layer0_labels.length : ℚ)
    let kappa := cohens_kappa layer0_labels layer2_labels
    let modality_labels := pairs.foldl addModalityPair []
    let per_modality := modality_labels.filterMap
      (fun kv =>
        if kv.2.1.isEmpty then none
        else some (kv.1,
          ((kv.2.1.zip kv.2.2).countP (fun ab => ab.1 == ab.2) : ℚ) /
            (kv.2.1.length : ℚ),
          cohens_kappa kv.2.1 kv.2.2))
    { layer0_vs_layer2_agreement := agreement
      layer0_vs_layer2_kappa := kappa
      per_modality := per_modality
      drift_detected := decide (kappa < kappa_threshold) ||
        decide (agreement < agreement_threshold)
      kappa_threshold := kappa_threshold
      agreement_threshold := agreement_threshold
      total_grades := n }

/-- `compute_calibration_drift` from `calibration_drift.py`.
`calibration_set_ids = none` is Python `None`; an empty id list behaves
like `None` because the source tests the set's truthiness. -/
def compute_calibration_drift (grades : List GradeDict)
    (calibration_set_ids : Option (List String))
    (kappa_threshold : ℚ := 6/10) (agreement_threshold : ℚ := 7/10) :
    DriftReport :=
  let grades :=
    match calibration_set_ids with
    | some ids =>
      if ids.isEmpty then grades
      else grades.filter
        (fun g => ids.any (fun s => dictGetD g "task_id" (.str "") == Json.str s))
    | none => grades
  if grades.isEmpty then
    { layer0_vs_layer2_agreement := 0
      layer0_vs_layer2_kappa := 0
      per_modality := []
      drift_detected := false
      kappa_threshold := kappa_threshold
      agreement_threshold := agreement_threshold
      total_grades := 0 }
  else
    driftFromPairs (grades.filterMap driftPair) grades.length
      kappa_threshold agreement_threshold

/-! ## grading/grader.py -/

/-- `LAYER_0_CONFIDENCE_THRESHOLD` from `grader.py`. -/
def LAYER_0_CONFIDENCE_THRESHOLD : ℚ := 8/10

/-- `GradeResult` from `grader.py`.  `pattern_result` and `judge_result`
are the persisted dicts (Python `dict[str, Any]`). -/
structure GradeResult where
  task_id : String
  model : String
  trial : Nat
  passed : Bool
  weighted_score : ℚ
  dimension_scores : List (String × ℚ)
  failure_class : Json
  detection_layer : Nat
  pattern_result : List (String × Json)
  judge_result : List (String × Json)
  overcalled_negatives : List String
  laterality_correct : Bool
  modality_signals : List (String × Bool)
  metadata : List (String × Json) := []

/-- Constructor state of `RubricGrader`: whether a judge provider object is
configured (the provider itself is external), the judge model name, and the
pattern-only flag. -/
structure RubricGrader where
  judge_provider : Bool
  judge_model : String := "gpt-5.2"
  pattern_only : Bool := false

/-- `RubricGrader._scores_from_patterns`: initial dimension scores derived
from pattern evidence, in the source's insertion order. -/
def RubricGrader.scores_from_patterns (pattern_result : PatternResult)
    (lat_correct : Bool) (overcalled : List String) (task : Task) :
    List (String × ℚ) :=
  let da : ℚ :=
    if pattern_result.required_total > 0 then
      (pattern_result.required_passed : ℚ) / (pattern_result.required_total : ℚ)
    else 1/2
  let fpc : ℚ :=
    if overcalled.isEmpty then 1
    else
      let n_negatives := task.ground_truth.negatives.length
      if n_negatives > 0 then
        max 0 (1 - (overcalled.length : ℚ) / (n_negatives : ℚ))
      else 0
  [("diagnostic_accuracy", da),
   ("finding_detection", pattern_result.pass_rate),
   ("anatomic_precision", if lat_correct then 1 else 0),
   ("clinical_relevance", 1/2),
   ("false_positive_control", fpc)]

/-- `RubricGrader._combine_scores`: judge scores override pattern scores for
every dimension present in both, except `false_positive_control`, which
takes the minimum of the two. -/
def RubricGrader.combine_scores (pattern_scores : List (String × ℚ))
    (judge_result : JudgeResult) : List (String × ℚ) :=
  judge_result.dimension_scores.foldl
    (fun combined kv =>
      match qGet combined kv.1 with
      | none => combined
      | some cur =>
        qSet combined kv.1
          (if kv.1 == "false_positive_control" then min cur kv.2 else kv.2))
    pattern_scores

/-- The `refusal_patterns` literal of `RubricGrader._classify_from_patterns`. -/
def refusal_patterns : List String :=
  ["cannot interpret", "unable to analyze", "i cannot", "i\x27m unable"]

/-- `RubricGrader._classify_from_patterns`: failure class from pattern
results alone, first match wins (E refusal, D overcall, A all-required-fail,
C some-required-fail, else none). -/
def RubricGrader.classify_from_patterns (pattern_result : PatternResult)
    (overcalled : List String) (response : String) : Json :=
  if refusal_patterns.any (fun p => strContains (pyLower response) p) then
    .str "E"
  else if !overcalled.isEmpty then .str "D"
  else if pattern_result.required_total > 0 &&
      pattern_result.required_passed == 0 then .str "A"
  else if !pattern_result.all_required_pass then .str "C"
  else .null

/-- `RubricGrader._determine_pass`: class A and B always fail; otherwise
pass iff the weighted score reaches 0.5. -/
def RubricGrader.determine_pass (score : ℚ) (failure_class : Json) : Bool :=
  if failure_class == .str "A" || failure_class == .str "B" then false
  else decide ((1:ℚ)/2 ≤ score)

/-- `RubricGrader.grade`.  The awaited `_run_judge` call is an external
network operation; its outcome for this call is passed as `judgeOutcome`
(`none` = provider error/exception, swallowed by `_run_judge`).  The
source consults it only inside the escalation branch. -/
def RubricGrader.grade (g : RubricGrader)
    (regexSearch : String → String → Bool)
    (judgeOutcome : Option JudgeResult)
    (task : Task) (response : String) (model : String) (trial : Nat := 0) :
    GradeResult :=
  let pattern_result := run_task_patterns regexSearch task response
  let modality_signals := run_modality_patterns regexSearch task.modality response
  let lat_correct := check_laterality response task.ground_truth.laterality
  let overcalled := check_negatives response task.ground_truth.negatives
  let dim0 := RubricGrader.scores_from_patterns pattern_result lat_correct overcalled task
  let fc0 := RubricGrader.classify_from_patterns pattern_result overcalled response
  let escalate := !g.pattern_only && g.judge_provider &&
    decide (pattern_result.confidence < LAYER_0_CONFIDENCE_THRESHOLD)
  let step :
      List (String × ℚ) × Nat × Json × List (String × Json) :=
    if escalate then
      match judgeOutcome with
      | some jr =>
        (RubricGrader.combine_scores dim0 jr, 2, jr.failure_class,
         [("dimension_scores",
           Json.obj (jr.dimension_scores.map (fun kv => (kv.1, Json.num kv.2)))),
          ("failure_class", jr.failure_class),
          ("reasoning", jr.reasoning),
          ("judge_model", Json.str jr.judge_model)])
      | none => (dim0, 0, fc0, [])
    else (dim0, 0, fc0, [])
  let w_score := weighted_score step.1
  { task_id := task.id
    model := model
    trial := trial
    passed := RubricGrader.determine_pass w_score step.2.2.1
    weighted_score := w_score
    dimension_scores := step.1
    failure_class := step.2.2.1
    detection_layer := step.2.1
    pattern_result :=
      [("checks",
        Json.obj (pattern_result.checks.map (fun kv => (kv.1, Json.bool kv.2)))),
       ("required_passed", Json.num pattern_result.required_passed),
       ("required_total", Json.num pattern_result.required_total),
       ("confidence", Json.num pattern_result.confidence)]
    judge_result := step.2.2.2
    overcalled_negatives := overcalled
    laterality_correct := lat_correct
    modality_signals := modality_signals }

/-- `GradeResult.to_dict` (dataclass `asdict`, field order preserved): the
JSON record appended to the grade log. -/
def GradeResult.to_dict (r : GradeResult) : GradeDict :=
  [("task_id", .str r.task_id),
   ("model", .str r.model),
   ("trial", .num r.trial),
   ("passed", .bool r.passed),
   ("weighted_score", .num r.weighted_score),
   ("dimension_scores",
    .obj (r.dimension_scores.map (fun kv => (kv.1, Json.num kv.2)))),
   ("failure_class", r.failure_class),
   ("detection_layer", .num r.detection_layer),
   ("pattern_result", .obj r.pattern_result),
   ("judge_result", .obj r.judge_result),
   ("overcalled_negatives", .arr (r.overcalled_negatives.map Json.str)),
   ("laterality_correct", .bool r.laterality_correct),
   ("modality_signals",
    .obj (r.modality_signals.map (fun kv => (kv.1, Json.bool kv.2)))),
   ("metadata", .obj r.metadata)]

/-! ## Sorting helper

Python's `sorted` on strings orders lexicographically by code point and is
stable; every `sorted` call in the embedded code sorts pairwise-distinct
keys, for which any stable insertion sort by the same order produces the
identical list.  (Lean's own `String` order primitives do not reduce in the
kernel, so the comparison is spelled out on character codes.) -/

/-- Lexicographic code-point comparison of character lists (Python `<=`). -/
def strLeChars : List Char → List Char → Bool
  | [], _ => true
  | _ :: _, [] => false
  | a :: as, b :: bs =>
    if a.toNat < b.toNat then true
    else if b.toNat < a.toNat then false
    else strLeChars as bs

/-- Python string comparison `a <= b`. -/
def pyStrLe (a b : String) : Bool := strLeChars a.data b.data

/-- Stable insertion step for `sortBy`. -/
def insertSortedBy (le : α → α → Bool) (x : α) : List α → List α
  | [] => [x]
  | y :: ys => if le x y then x :: y :: ys else y :: insertSortedBy le x ys

/-- Stable insertion sort: the model of Python `sorted`. -/
def sortBy (le : α → α → Bool) (l : List α) : List α :=
  l.foldr (insertSortedBy le) []

/-! ## scoring.py (the fragment saturation analysis uses) -/

/-- `pass_pow_k` from `scoring.py`: all trials passed (vacuously true for
an empty list). -/
def pass_pow_k (trial_results : List Bool) : Bool :=
  trial_results.all (fun b => b)

/-! ## analysis/saturation.py -/

/-- The grade-log fields read by the saturation and suite-tracking
analyses: `g["task_id"]`, `g["model"]`, `g.get("passed", False)`. -/
structure Grade where
  task_id : String
  model : String
  passed : Bool
deriving DecidableEq

/-- `TaskSaturation` from `saturation.py`. -/
structure TaskSaturation where
  task_id : String
  models_saturated : List (String × Bool)
  pass_pow_k_by_model : List (String × ℚ)
  consecutive_all_pass : Nat
  saturated : Bool
deriving DecidableEq

/-- `CorpusSaturationReport` from `saturation.py`.  `per_modality` maps a
modality to (total, saturated); `per_difficulty` is always empty in the
source. -/
structure CorpusSaturationReport where
  total_tasks : Nat
  saturated_tasks : Nat
  saturation_rate : ℚ
  per_modality : List (String × Nat × Nat)
  per_difficulty : List (String × Nat × Nat)
  task_details : List TaskSaturation
  needs_evolution : List String
  threshold : ℚ
  min_consecutive_runs : Nat
deriving DecidableEq

/-- One grade's update of the per-run grouping dict of `detect_saturation`:
append `passed` to the pair's list, inserting the pair on first sight. -/
def runDataStep (acc : List ((String × String) × List Bool)) (g : Grade) :
    List ((String × String) × List Bool) :=
  let key := (g.task_id, g.model)
  if acc.any (fun kv => kv.1 == key) then
    acc.map (fun kv => if kv.1 == key then (kv.1, kv.2 ++ [g.passed]) else kv)
  else acc ++ [(key, [g.passed])]

/-- The per-run grouping dict of `detect_saturation`:
`run_data[(task_id, model)]` is the list of `passed` booleans of that
run's grades for the pair, in file order. -/
def runData (grades : List Grade) : List ((String × String) × List Bool) :=
  grades.foldl runDataStep []

/-- `run_data.get((task_id, model), [])`. -/
def getTrials (rd : List ((String × String) × List Bool))
    (key : String × String) : List Bool :=
  match rd.find? (fun kv => kv.1 == key) with
  | some kv => kv.2
  | none => []

/-- Distinct strings of a list, first occurrences kept (a Python `set`
about to be `sorted`). -/
def distinctStr (l : List String) : List String :=
  l.foldl (fun acc x => if acc.any (fun y => x == y) then acc else acc ++ [x]) []

/-- The walk backwards from the most recent run in `detect_saturation`:
count consecutive runs whose trial list for the pair is nonempty and fully
passing; stop at the first run that fails or has no trials.  The argument
is the run list already reversed (most recent first). -/
def streakFrom (key : String × String) :
    List (List ((String × String) × List Bool)) → Nat
  | [] => 0
  | rd :: rest =>
    let trials := getTrials rd key
    if !trials.isEmpty && pass_pow_k trials then streakFrom key rest + 1 else 0

/-- The per-(task, model) body of the loop in `detect_saturation`:
(model-saturated flag, all-time aggregate pass rate). -/
def modelEntry (runsD : List (List ((String × String) × List Bool)))
    (threshold : ℚ) (min_consecutive_runs : Nat) (key : String × String) :
    Bool × ℚ :=
  let consecutive := streakFrom key runsD.reverse
  let total_trials_all_runs := runsD.flatMap (fun rd => getTrials rd key)
  let rc : ℚ × Nat :=
    if !total_trials_all_runs.isEmpty then
      (((total_trials_all_runs.countP (fun b => b)) : ℚ) /
        (total_trials_all_runs.length : ℚ), consecutive)
    else (0, 0)
  (decide (rc.2 ≥ min_consecutive_runs) && decide (rc.1 ≥ threshold), rc.1)

/-- The consecutive-all-models-pass count of `detect_saturation` (runs
already reversed, most recent first). -/
def allModelsPassStreak (all_models : List String) (task_id : String) :
    List (List ((String × String) × List Bool)) → Nat
  | [] => 0
  | rd :: rest =>
    let all_pass := all_models.all (fun m =>
      let trials := getTrials rd (task_id, m)
      !trials.isEmpty && pass_pow_k trials)
    if all_pass then allModelsPassStreak all_models task_id rest + 1 else 0

/-- The per-task body of the loop in `detect_saturation`. -/
def taskSaturationFor (runsD : List (List ((String × String) × List Bool)))
    (all_models : List String) (threshold : ℚ) (min_consecutive_runs : Nat)
    (task_id : String) : TaskSaturation :=
  let entries := all_models.map
    (fun m => (m, modelEntry runsD threshold min_consecutive_runs (task_id, m)))
  let models_saturated := entries.map (fun e => (e.1, e.2.1))
  let all_saturated := !models_saturated.isEmpty &&
    models_saturated.all (fun kv => kv.2)
  { task_id := task_id
    models_saturated := models_saturated
    pass_pow_k_by_model := entries.map (fun e => (e.1, e.2.2))
    consecutive_all_pass := allModelsPassStreak all_models task_id runsD.reverse
    saturated := all_saturated }

/-- Per-modality tally step of `detect_saturation`. -/
def addSatModality (acc : List (String × Nat × Nat)) (ts : TaskSaturation) :
    List (String × Nat × Nat) :=
  let mod := infer_modality ts.task_id
  if acc.any (fun kv => kv.1 == mod) then
    acc.map (fun kv =>
      if kv.1 == mod then
        (kv.1, kv.2.1 + 1, kv.2.2 + (if ts.saturated then 1 else 0))
      else kv)
  else acc ++ [(mod, 1, if ts.saturated then 1 else 0)]

/-- `detect_saturation` from `saturation.py`, over the already-loaded
per-run grade lists (oldest first; `_load_grades_from_dir` is file I/O and
produces one grade list per results directory, possibly empty). -/
def detect_saturation (runs : List (List Grade)) (threshold : ℚ := 95/100)
    (min_consecutive_runs : Nat := 3) : CorpusSaturationReport :=
  let runsD := runs.map runData
  if runsD.isEmpty then
    { total_tasks := 0
      saturated_tasks := 0
      saturation_rate := 0
      per_modality := []
      per_difficulty := []
      task_details := []
      needs_evolution := []
      threshold := threshold
      min_consecutive_runs := min_consecutive_runs }
  else
    let all_keys := runsD.flatMap (fun rd => rd.map (fun kv => kv.1))
    let all_task_ids := sortBy pyStrLe (distinctStr (all_keys.map (fun k => k.1)))
    let all_models := sortBy pyStrLe (distinctStr (all_keys.map (fun k => k.2)))
    let task_details := all_task_ids.map
      (taskSaturationFor runsD all_models threshold min_consecutive_runs)
    let saturated_ids :=
      (task_details.filter (fun ts => ts.saturated)).map (fun ts => ts.task_id)
    let per_modality := task_details.foldl addSatModality []
    let total_tasks := all_task_ids.length
    let saturated_count := saturated_ids.length
    { total_tasks := total_tasks
      saturated_tasks := saturated_count
      saturation_rate :=
        if total_tasks ≠ 0 then (saturated_count : ℚ) / (total_tasks : ℚ) else 0
      per_modality := per_modality
      per_difficulty := []
      task_details := task_details
      needs_evolution := saturated_ids
      threshold := threshold
      min_consecutive_runs := min_consecutive_runs }

/-! ## analysis/suite_tracker.py -/

/-- `TaskMembership` from `suite_tracker.py`. -/
structure TaskMembership where
  suite : String := "capability"
  consecutive_all_pass : Nat := 0
  consecutive_any_fail : Nat := 0
  promoted_date : Option String := none
  retired_date : Option String := none
deriving DecidableEq

/-- One per-modality count container of `SuiteMembership` (a dict with
exactly these five keys throughout the source). -/
structure SuiteCounts where
  xray : Nat := 0
  ct : Nat := 0
  mri : Nat := 0
  ultrasound : Nat := 0
  total : Nat := 0
deriving DecidableEq

/-- `SuiteMembership` from `suite_tracker.py`: the sole persistent mutable
state, tasks in dict insertion order. -/
structure SuiteMembership where
  capability : SuiteCounts := {}
  regression : SuiteCounts := {}
  retired : SuiteCounts := {}
  tasks : List (String × TaskMembership) := []
deriving DecidableEq

/-- `membership.tasks.get(task_id)`. -/
def tasksGet (tasks : List (String × TaskMembership)) (task_id : String) :
    Option TaskMembership :=
  match tasks.find? (fun kv => kv.1 == task_id) with
  | some kv => some kv.2
  | none => none

/-- Python `membership.tasks[task_id] = tm`: update in place when the key
exists (keys are unique), append otherwise. -/
def tasksSet (tasks : List (String × TaskMembership)) (task_id : String)
    (tm : TaskMembership) : List (String × TaskMembership) :=
  if tasks.any (fun kv => kv.1 == task_id) then
    tasks.map (fun kv => if kv.1 == task_id then (kv.1, tm) else kv)
  else tasks ++ [(task_id, tm)]

/-- One task's contribution to `_recount_suites` for one suite name: bump
the task's modality bucket (if known) and the total when its suite
matches, mirroring `if mod in counts`. -/
def countForStep (suite_name : String) (counts : SuiteCounts)
    (kv : String × TaskMembership) : SuiteCounts :=
  if kv.2.suite == suite_name then
    let mod := infer_modality kv.1
    let counts :=
      if mod == "xray" then { counts with xray := counts.xray + 1 }
      else if mod == "ct" then { counts with ct := counts.ct + 1 }
      else if mod == "mri" then { counts with mri := counts.mri + 1 }
      else if mod == "ultrasound" then
        { counts with ultrasound := counts.ultrasound + 1 }
      else counts
    { counts with total := counts.total + 1 }
  else counts

/-- The inner tally of `_recount_suites` for one suite name: count tasks
whose `suite` field matches, bucketed by inferred modality (an unknown
modality is counted only in `total`). -/
def countFor (tasks : List (String × TaskMembership)) (suite_name : String) :
    SuiteCounts :=
  tasks.foldl (countForStep suite_name) {}

/-- `_recount_suites` from `suite_tracker.py`: recompute all three count
containers from the task map. -/
def recount_suites (m : SuiteMembership) : SuiteMembership :=
  { m with
    capability := countFor m.tasks "capability"
    regression := countFor m.tasks "regression"
    retired := countFor m.tasks "retired" }

/-- The grouping dict of `update_tracking`: `passed` booleans per task id,
in grade order. -/
def groupByTask (grades : List Grade) : List (String × List Bool) :=
  grades.foldl
    (fun acc g =>
      if acc.any (fun kv => kv.1 == g.task_id) then
        acc.map (fun kv =>
          if kv.1 == g.task_id then (kv.1, kv.2 ++ [g.passed]) else kv)
      else acc ++ [(g.task_id, [g.passed])])
    []

/-- `update_tracking` from `suite_tracker.py`: create missing task entries
with defaults, then update the rolling consecutive counters from the new
run's grades.  Note: it does not call `_recount_suites`. -/
def update_tracking (m : SuiteMembership) (grades : List Grade) :
    SuiteMembership :=
  (groupByTask grades).foldl
    (fun m kv =>
      let tm := (tasksGet m.tasks kv.1).getD {}
      let all_passed := kv.2.all (fun b => b)
      let tm :=
        if all_passed then
          { tm with consecutive_all_pass := tm.consecutive_all_pass + 1
                    consecutive_any_fail := 0 }
        else
          { tm with consecutive_any_fail := tm.consecutive_any_fail + 1
                    consecutive_all_pass := 0 }
      { m with tasks := tasksSet m.tasks kv.1 tm })
    m

/-- `apply_promotion` from `suite_tracker.py`.  `now` stands for
`datetime.now(timezone.utc).isoformat()` (external clock). -/
def apply_promotion (m : SuiteMembership) (task_id : String) (now : String) :
    SuiteMembership :=
  let tm := (tasksGet m.tasks task_id).getD {}
  let tm := { tm with suite := "regression", promoted_date := some now }
  recount_suites { m with tasks := tasksSet m.tasks task_id tm }

/-- `apply_retirement` from `suite_tracker.py`. -/
def apply_retirement (m : SuiteMembership) (task_id : String) (now : String) :
    SuiteMembership :=
  let tm := (tasksGet m.tasks task_id).getD {}
  let tm := { tm with suite := "retired", retired_date := some now }
  recount_suites { m with tasks := tasksSet m.tasks task_id tm }

/-- The YAML document written by `save_suite_membership` and read back by
`load_suite_membership` (the yaml library and the filesystem are external
and faithful for this structured data). -/
structure SavedSuiteData where
  capability : SuiteCounts
  regression : SuiteCounts
  retired : SuiteCounts
  tasks : List (String × TaskMembership)
deriving DecidableEq

/-- `save_suite_membership` from `suite_tracker.py`: tasks are written
sorted by id (`sorted(membership.tasks.items())` orders by the pairs, and
the unique string keys decide the order), each with its five fields; the
three count containers are written as they are, without recounting. -/
def save_suite_membership (m : SuiteMembership) : SavedSuiteData :=
  { capability := m.capability
    regression := m.regression
    retired := m.retired
    tasks := sortBy (fun a b => pyStrLe a.1 b.1) m.tasks }

/-- `load_suite_membership` from `suite_tracker.py`, on an existing file's
parsed document: the three count containers are taken verbatim from the
file, and each task entry is rebuilt field by field with `.get` defaults
(all five keys are present in saved data, so this is field-wise identity).
A missing file yields the default `SuiteMembership` and is not modelled. -/
def load_suite_membership (d : SavedSuiteData) : SuiteMembership :=
  { capability := d.capability
    regression := d.regression
    retired := d.retired
    tasks := d.tasks.map (fun kv =>
      (kv.1,
       { suite := kv.2.suite
         consecutive_all_pass := kv.2.consecutive_all_pass
         consecutive_any_fail := kv.2.consecutive_any_fail
         promoted_date := kv.2.promoted_date
         retired_date := kv.2.retired_date })) }

/-! ## Specification-side definitions

These definitions follow the words of the specification (not the code) and
exist to be compared with the embedded code above. -/

/-- Confidence heuristic as the specification states it (§4.1): 0 checks →
0.0; at least one required and all required fail → 0.9; all required pass
with ≥ 2 required → 0.85; otherwise 0.5 + 0.3 × (checks passed / total). -/
def confidence_spec (req_passed req_total opt_passed opt_total : Nat) : ℚ :=
  if req_total + opt_total = 0 then 0
  else if 0 < req_total ∧ req_passed = 0 then 9/10
  else if req_passed = req_total ∧ 2 ≤ req_total then 85/100
  else 1/2 + (3/10) * (((req_passed + opt_passed : Nat) : ℚ) /
    ((req_total + opt_total : Nat) : ℚ))

/-- Number of tasks in a task map whose suite matches and whose inferred
modality matches (the specification's notion of a per-modality aggregate). -/
def suiteModalityCount (tasks : List (String × TaskMembership))
    (suite_name modality : String) : Nat :=
  (tasks.filter (fun kv =>
    kv.2.suite == suite_name && infer_modality kv.1 == modality)).length

/-- Number of tasks in a task map whose suite matches. -/
def suiteTotalCount (tasks : List (String × TaskMembership))
    (suite_name : String) : Nat :=
  (tasks.filter (fun kv => kv.2.suite == suite_name)).length

/-- One count container agrees with the task map for one suite name. -/
def countsAgree (c : SuiteCounts) (tasks : List (String × TaskMembership))
    (suite_name : String) : Prop :=
  c.xray = suiteModalityCount tasks suite_name "xray" ∧
  c.ct = suiteModalityCount tasks suite_name "ct" ∧
  c.mri = suiteModalityCount tasks suite_name "mri" ∧
  c.ultrasound = suiteModalityCount tasks suite_name "ultrasound" ∧
  c.total = suiteTotalCount tasks suite_name

/-- The invariant of the specification: every per-modality aggregate count
in the three containers equals the number of matching tasks in the map. -/
def countsInvariant (m : SuiteMembership) : Prop :=
  countsAgree m.capability m.tasks "capability" ∧
  countsAgree m.regression m.tasks "regression" ∧
  countsAgree m.retired m.tasks "retired"

/-- A run's trials for a (task, model) pair, as the claim describes them:
the `passed` booleans of that run's grades for the pair, in order. -/
def trialsIn (run : List Grade) (key : String × String) : List Bool :=
  (run.filter (fun g => (g.task_id, g.model) == key)).map (fun g => g.passed)

/-- The claim's streak: consecutive most-recent runs whose trials for the
pair are nonempty and all passing (the argument lists runs most recent
first). -/
def recentStreak (key : String × String) : List (List Grade) → Nat
  | [] => 0
  | run :: rest =>
    if !(trialsIn run key).isEmpty && pass_pow_k (trialsIn run key) then
      recentStreak key rest + 1
    else 0

/-- The claim's all-time aggregate pass rate for a (task, model) pair
across all runs (0 when the pair has no trials at all). -/
def aggregateRate (runs : List (List Grade)) (key : String × String) : ℚ :=
  let tr := runs.flatMap (fun run => trialsIn run key)
  if tr.isEmpty then 0
  else ((tr.countP (fun b => b)) : ℚ) / ((tr.length) : ℚ)

/-- The claim's notion of a model-saturated (task, model) pair: streak at
least `min_consecutive_runs` and aggregate rate at least `threshold`. -/
def modelSaturatedSpec (runs : List (List Grade)) (threshold : ℚ)
    (min_consecutive_runs : Nat) (key : String × String) : Prop :=
  min_consecutive_runs ≤ recentStreak key runs.reverse ∧
  threshold ≤ aggregateRate runs key

/-! ## Concrete fixtures used by witnesses and counterexamples -/

/-- A regex engine that matches nothing (no fixture task uses regex checks,
so any engine gives the same results). -/
def noRegex : String → String → Bool := fun _ _ => false

/-- Fixture task: one required `contains` check on "pn" and one optional
`contains` check on "qq"; no laterality, no negatives.  On the response
"pn" the required check passes and the optional one fails, so the pattern
confidence is 0.5 + 0.3 × (1/2) = 0.65 < 0.8 and the judge is consulted. -/
def taskTwoChecks : Task :=
  { id := "xray-002"
    modality := "xray"
    ground_truth := { laterality := "", negatives := [] }
    pattern_checks :=
      [{ name := "c1", check_type := .contains, pattern := "pn" },
       { name := "c2", check_type := .contains, pattern := "qq",
         required := false }] }

/-- Fixture judge verdict: a passing judge result (no failure class). -/
def jrPass : JudgeResult :=
  { dimension_scores :=
      [("diagnostic_accuracy", 1), ("finding_detection", 1),
       ("anatomic_precision", 1), ("clinical_relevance", 1),
       ("false_positive_control", 1/2)]
    failure_class := Json.null
    reasoning := Json.str "ok"
    judge_model := "jm" }

/-- Fixture grade: `taskTwoChecks` graded on "pn" with the judge consulted
and returning `jrPass` — all required patterns pass, and the grade carries
both a pattern and a judge payload. -/
def gradeEscalated : GradeResult :=
  RubricGrader.grade { judge_provider := true } noRegex (some jrPass)
    taskTwoChecks "pn" "m" 0

/-- Fixture saturation history: three identical runs; model M1 passes tasks
T1 and T2, model M2 passes T1 and is never run on T2. -/
def runsTwoModels : List (List Grade) :=
  List.replicate 3
    [{ task_id := "T1", model := "M1", passed := true },
     { task_id := "T1", model := "M2", passed := true },
     { task_id := "T2", model := "M1", passed := true }]

/-- Fixture grade-log record lacking a `judge_result` (pattern-only grade). -/
def gradeNoJudge : GradeDict :=
  [("task_id", Json.str "xray-001"),
   ("pattern_result", Json.obj [("all_required_pass", Json.bool true)])]

/-- Fixture suite membership with two populated task entries. -/
def membershipTwoTasks : SuiteMembership :=
  { tasks :=
      [("XRAY-001", { suite := "capability", consecutive_all_pass := 3 }),
       ("CT-001", { suite := "regression", consecutive_any_fail := 2,
                    promoted_date := some "2026-02-28T00:00:00+00:00" })] }

/-! ## Shared lemmas -/

/-- Equality test against a string value is sound and complete. -/
theorem beq_str_iff (j : Json) (s : String) :
    (j == Json.str s) = true ↔ j = Json.str s := by
  cases j <;> simp [BEq.beq, Json.beq]

/-! ## Claim C1 -/

/-- C1: for every grading call, a final failure class of "A" or "B" forces
`passed = false` regardless of the weighted score; any other failure class
gives `passed = true` exactly when the weighted score is at least 0.5. -/
theorem C1_failure_class_pass_rule (g : RubricGrader)
    (regexSearch : String → String → Bool) (judgeOutcome : Option JudgeResult)
    (task : Task) (response model : String) (trial : Nat) :
    let r := RubricGrader.grade g regexSearch judgeOutcome task response model trial
    (r.failure_class = Json.str "A" ∨ r.failure_class = Json.str "B" →
      r.passed = false) ∧
    (r.failure_class ≠ Json.str "A" → r.failure_class ≠ Json.str "B" →
      (r.passed = true ↔ (1:ℚ)/2 ≤ r.weighted_score)) := by
  intro r
  have hp : r.passed =
      RubricGrader.determine_pass r.weighted_score r.failure_class := rfl
  constructor
  · intro h
    rw [hp, RubricGrader.determine_pass]
    rcases h with h | h <;> rw [h] <;> simp [BEq.beq, Json.beq]
  · intro hA hB
    have h1 : (r.failure_class == Json.str "A") = false := by
      rw [Bool.eq_false_iff]
      intro h
      exact hA ((beq_str_iff _ _).mp h)
    have h2 : (r.failure_class == Json.str "B") = false := by
      rw [Bool.eq_false_iff]
      intro h
      exact hB ((beq_str_iff _ _).mp h)
    rw [hp, RubricGrader.determine_pass, h1, h2]
    simp

/-- Concrete instantiation of C1: a task with one required check that the
response fails is classified "A" and fails regardless of score. -/
theorem C1_failure_class_pass_rule_witness :
    (RubricGrader.grade { judge_provider := false } (fun _ _ => false) none
      { id := "xray-001", modality := "xray",
        ground_truth := { laterality := "", negatives := [] },
        pattern_checks :=
          [{ name := "c1", check_type := .contains, pattern := "pn" }] }
      "zz" "m" 0).failure_class = Json.str "A" ∧
    (RubricGrader.grade { judge_provider := false } (fun _ _ => false) none
      { id := "xray-001", modality := "xray",
        ground_truth := { laterality := "", negatives := [] },
        pattern_checks :=
          [{ name := "c1", check_type := .contains, pattern := "pn" }] }
      "zz" "m" 0).passed = false :=
  ⟨by with_unfolding_all rfl,
   (C1_failure_class_pass_rule { judge_provider := false } (fun _ _ => false)
      none
      { id := "xray-001", modality := "xray",
        ground_truth := { laterality := "", negatives := [] },
        pattern_checks :=
          [{ name := "c1", check_type := .contains, pattern := "pn" }] }
      "zz" "m" 0).1 (Or.inl (by with_unfolding_all rfl))⟩

/-! ## Claim C4 -/

/-- Code confidence block equals the specification's formula for every
combination of counts. -/
theorem patternConfidence_eq_spec (rp rt op ot : Nat) :
    patternConfidence rp rt op ot = confidence_spec rp rt op ot := by
  simp only [patternConfidence, confidence_spec, Bool.and_eq_true,
    decide_eq_true_eq, beq_iff_eq, ge_iff_le]
  split_ifs with h1 h2 h3 <;> try rfl
  push_cast
  ring

/-- C4: the pattern confidence equals the specified piecewise formula of
the per-check tallies (0.0 with no checks; 0.9 when some required check
exists and all required fail; 0.85 when all required pass and at least two
exist; otherwise 0.5 + 0.3 × passed/total), and hence depends only on the
per-check outcomes. -/
theorem C4_confidence_matches_spec (regexSearch : String → String → Bool)
    (task : Task) (response : String) :
    let r := run_task_patterns regexSearch task response
    r.confidence = confidence_spec r.required_passed r.required_total
      r.optional_passed r.optional_total := by
  intro r
  have : r.confidence = patternConfidence r.required_passed r.required_total
      r.optional_passed r.optional_total := rfl
  rw [this, patternConfidence_eq_spec]

/-! ## Claim C10 -/

/-- C10: with zero pattern checks the pass rate property is 1.0, so the
pattern-derived `finding_detection` score is 1.0, while
`diagnostic_accuracy` defaults to 0.5 and the confidence is 0.0. -/
theorem C10_zero_checks_maximizes_finding_detection
    (regexSearch : String → String → Bool) (task : Task) (response : String)
    (lat_correct : Bool) (overcalled : List String)
    (h : task.pattern_checks = []) :
    let r := run_task_patterns regexSearch task response
    r.pass_rate = 1 ∧ r.confidence = 0 ∧
    qGet (RubricGrader.scores_from_patterns r lat_correct overcalled task)
      "finding_detection" = some 1 ∧
    qGet (RubricGrader.scores_from_patterns r lat_correct overcalled task)
      "diagnostic_accuracy" = some (1/2) := by
  intro r
  have hr : r = ⟨[], 0, 0, 0, 0, patternConfidence 0 0 0 0⟩ := by
    show run_task_patterns regexSearch task response = _
    simp only [run_task_patterns, h]
    rfl
  rw [hr]
  refine ⟨by norm_num [PatternResult.pass_rate],
    by norm_num [patternConfidence], ?_, ?_⟩ <;>
    simp [RubricGrader.scores_from_patterns, qGet, List.find?,
      PatternResult.pass_rate]

/-- Concrete instantiation of C10 on a task without pattern checks. -/
theorem C10_zero_checks_witness :
    qGet (RubricGrader.scores_from_patterns
      (run_task_patterns (fun _ _ => false)
        { id := "ct-001", modality := "ct",
          ground_truth := { laterality := "", negatives := [] },
          pattern_checks := [] } "hi")
      true []
      { id := "ct-001", modality := "ct",
        ground_truth := { laterality := "", negatives := [] },
        pattern_checks := [] }) "finding_detection" = some 1 :=
  (C10_zero_checks_maximizes_finding_detection (fun _ _ => false)
    { id := "ct-001", modality := "ct",
      ground_truth := { laterality := "", negatives := [] },
      pattern_checks := [] } "hi" true [] rfl).2.2.1

/-! ## Claim C3 -/

/-- The dimension-score extraction of `parse_judge_response` succeeds
whenever every dimension key holds a number (or is absent, giving the
numeric default). -/
theorem extractScores_ok (names : List String) (kvs : List (String × Json))
    (h : ∀ n ∈ names, ∃ q, dictGetD kvs n (Json.num 0) = Json.num q) :
    ∃ l, extractScores names kvs = .ok l := by
  induction names with
  | nil => exact ⟨[], rfl⟩
  | cons n ns ih =>
    obtain ⟨q, hq⟩ := h n (by simp)
    obtain ⟨l, hl⟩ := ih (fun m hm => h m (by simp [hm]))
    refine ⟨(n, max 0 (min 1 q)) :: l, ?_⟩
    simp only [extractScores, hq, pyFloat, hl]
    rfl

/-- C3 counterexample: on valid JSON whose `failure_class` is "X" (a string
outside A–E) the parser does NOT return the failure sentinel — the class is
coerced to `None` and the reasoning is empty, unlike the sentinel's class
"E" and explanatory reasoning. -/
theorem C3_counterexample :
    parse_judge_response (some (Json.obj [("failure_class", Json.str "X")]))
      "jm" "raw" =
      Except.ok
        { dimension_scores :=
            [("diagnostic_accuracy", 0), ("finding_detection", 0),
             ("anatomic_precision", 0), ("clinical_relevance", 0),
             ("false_positive_control", 0)]
          failure_class := Json.null
          reasoning := Json.str ""
          judge_model := "jm"
          raw_response := "raw" } ∧
    Json.null ≠ Json.str "E" ∧
    Json.str "" ≠ Json.str "Judge response was not valid JSON" :=
  ⟨by with_unfolding_all rfl, by simp, by simp⟩

/-- C3 (amended): a JSON decode failure degrades to the sentinel (all five
scores 0.0, class "E", reasoning explaining the parse failure) and never
raises; but on valid JSON a truthy `failure_class` outside the set
{A, B, C, D, E} is coerced to `None` — not the sentinel — while the scores
are read from the JSON with default 0.0. -/
theorem C3_amended_parse_degradation :
    (∀ jm raw, parse_judge_response none jm raw =
        Except.ok (judgeSentinel jm raw) ∧
      (judgeSentinel jm raw).dimension_scores =
        [("diagnostic_accuracy", 0), ("finding_detection", 0),
         ("anatomic_precision", 0), ("clinical_relevance", 0),
         ("false_positive_control", 0)] ∧
      (judgeSentinel jm raw).failure_class = Json.str "E" ∧
      (judgeSentinel jm raw).reasoning =
        Json.str "Judge response was not valid JSON") ∧
    (∀ kvs jm raw,
      (dictGetD kvs "failure_class" Json.null).truthy = true →
      ((dictGetD kvs "failure_class" Json.null == Json.str "A") ||
       (dictGetD kvs "failure_class" Json.null == Json.str "B") ||
       (dictGetD kvs "failure_class" Json.null == Json.str "C") ||
       (dictGetD kvs "failure_class" Json.null == Json.str "D") ||
       (dictGetD kvs "failure_class" Json.null == Json.str "E")) = false →
      (∀ n ∈ dimension_names, ∃ q, dictGetD kvs n (Json.num 0) = Json.num q) →
      (parse_judge_response (some (Json.obj kvs)) jm raw).map
        (fun r => r.failure_class) = Except.ok Json.null) := by
  constructor
  · intro jm raw
    exact ⟨rfl, rfl, rfl, rfl⟩
  · intro kvs jm raw ht hnot hnums
    obtain ⟨l, hl⟩ := extractScores_ok dimension_names kvs hnums
    simp only [parse_judge_response, hl, ht, hnot]
    rfl

/-! ## Claim C2 -/

/-- Merging judge scores over the five standard dimensions: every dimension
takes the judge's value except `false_positive_control`, which takes the
minimum of the pattern and judge values. -/
theorem combine_scores_five (p1 p2 p3 p4 p5 v1 v2 v3 v4 v5 : ℚ)
    (jr : JudgeResult)
    (h : jr.dimension_scores =
      [("diagnostic_accuracy", v1), ("finding_detection", v2),
       ("anatomic_precision", v3), ("clinical_relevance", v4),
       ("false_positive_control", v5)]) :
    RubricGrader.combine_scores
      [("diagnostic_accuracy", p1), ("finding_detection", p2),
       ("anatomic_precision", p3), ("clinical_relevance", p4),
       ("false_positive_control", p5)] jr =
      [("diagnostic_accuracy", v1), ("finding_detection", v2),
       ("anatomic_precision", v3), ("clinical_relevance", v4),
       ("false_positive_control", min p5 v5)] := by
  rw [RubricGrader.combine_scores, h]
  with_unfolding_all rfl

/-- C2: the judge outcome is consulted exactly when pattern-only mode is
off, a provider is configured, and pattern confidence < 0.8; when consulted
and a result is returned, judge dimension scores replace the pattern scores
except `false_positive_control` (minimum of the two), the judge's failure
class replaces the pattern class, and the detection layer becomes 2;
in every other case the grade ignores the judge outcome and keeps
detection layer 0 with an empty judge payload. -/
theorem C2_judge_escalation_policy (g : RubricGrader)
    (regexSearch : String → String → Bool) (task : Task)
    (response model : String) (trial : Nat) :
    let pr := run_task_patterns regexSearch task response
    ((g.pattern_only = true ∨ g.judge_provider = false ∨
        ¬ pr.confidence < LAYER_0_CONFIDENCE_THRESHOLD) →
      ∀ jo, RubricGrader.grade g regexSearch jo task response model trial =
          RubricGrader.grade g regexSearch none task response model trial ∧
        (RubricGrader.grade g regexSearch jo task response model
            trial).detection_layer = 0 ∧
        (RubricGrader.grade g regexSearch jo task response model
            trial).judge_result = []) ∧
    (g.pattern_only = false → g.judge_provider = true →
      pr.confidence < LAYER_0_CONFIDENCE_THRESHOLD →
      ((RubricGrader.grade g regexSearch none task response model
          trial).detection_layer = 0 ∧
       (RubricGrader.grade g regexSearch none task response model
          trial).judge_result = []) ∧
      ∀ (jr : JudgeResult) (v1 v2 v3 v4 v5 : ℚ),
        jr.dimension_scores =
          [("diagnostic_accuracy", v1), ("finding_detection", v2),
           ("anatomic_precision", v3), ("clinical_relevance", v4),
           ("false_positive_control", v5)] →
        let r := RubricGrader.grade g regexSearch (some jr) task response
          model trial
        r.detection_layer = 2 ∧ r.failure_class = jr.failure_class ∧
        qGet r.dimension_scores "diagnostic_accuracy" = some v1 ∧
        qGet r.dimension_scores "finding_detection" = some v2 ∧
        qGet r.dimension_scores "anatomic_precision" = some v3 ∧
        qGet r.dimension_scores "clinical_relevance" = some v4 ∧
        qGet r.dimension_scores "false_positive_control" =
          (qGet (RubricGrader.scores_from_patterns pr
            (check_laterality response task.ground_truth.laterality)
            (check_negatives response task.ground_truth.negatives) task)
            "false_positive_control").map (fun w => min w v5)) := by
  intro pr
  constructor
  · intro h jo
    have hesc : (!g.pattern_only && g.judge_provider &&
        decide (pr.confidence < LAYER_0_CONFIDENCE_THRESHOLD)) = false := by
      rcases h with h | h | h <;> simp [h]
    refine ⟨?_, ?_, ?_⟩ <;> simp only [RubricGrader.grade, hesc] <;> rfl
  · intro hpo hjp hconf
    have hesc : (!g.pattern_only && g.judge_provider &&
        decide (pr.confidence < LAYER_0_CONFIDENCE_THRESHOLD)) = true := by
      simp [hpo, hjp, hconf]
    constructor
    · exact ⟨by simp only [RubricGrader.grade, hesc]; rfl,
        by simp only [RubricGrader.grade, hesc]; rfl⟩
    · intro jr v1 v2 v3 v4 v5 hjr r
      have hlayer : r.detection_layer = 2 := by
        show (RubricGrader.grade g regexSearch (some jr) task response model
          trial).detection_layer = 2
        simp only [RubricGrader.grade, hesc, if_true]
      have hfc : r.failure_class = jr.failure_class := by
        show (RubricGrader.grade g regexSearch (some jr) task response model
          trial).failure_class = jr.failure_class
        simp only [RubricGrader.grade, hesc, if_true]
      have hds : r.dimension_scores =
          RubricGrader.combine_scores
            (RubricGrader.scores_from_patterns pr
              (check_laterality response task.ground_truth.laterality)
              (check_negatives response task.ground_truth.negatives) task)
            jr := by
        show (RubricGrader.grade g regexSearch (some jr) task response model
          trial).dimension_scores = _
        simp only [RubricGrader.grade, hesc, if_true]
      refine ⟨hlayer, hfc, ?_, ?_, ?_, ?_, ?_⟩ <;>
        rw [hds] <;>
        simp only [RubricGrader.combine_scores, hjr] <;>
        with_unfolding_all rfl

/-- Concrete instantiation of C2: on `taskTwoChecks` with confidence 0.65
the judge is consulted, and `jrPass` drives the final grade. -/
theorem C2_judge_escalation_policy_witness :
    gradeEscalated.detection_layer = 2 ∧
    gradeEscalated.failure_class = Json.null :=
  have h := ((C2_judge_escalation_policy { judge_provider := true } noRegex
    taskTwoChecks "pn" "m" 0).2 rfl rfl
    (of_decide_eq_true (by with_unfolding_all rfl))).2
    jrPass 1 1 1 1 (1/2) (by with_unfolding_all rfl)
  ⟨h.1, h.2.1.trans rfl⟩

/-! ## Claim C5 -/

/-- C5 (code bug): `RubricGrader.grade` persists `pattern_result` as
checks/required_passed/required_total/confidence — without the
`all_required_pass` key that `compute_calibration_drift` reads.  On
`gradeEscalated` every required pattern passed and the judge agreed
(no failure class), yet the drift computation derives Layer-0 label
"FAIL" (the `.get` default) against Layer-2 "PASS" and reports 0%
agreement instead of 100%. -/
theorem C5_drift_layer0_label_mismatch :
    (run_task_patterns noRegex taskTwoChecks "pn").all_required_pass = true ∧
    gradeEscalated.pattern_result.find?
      (fun kv => kv.1 == "all_required_pass") = none ∧
    driftPair gradeEscalated.to_dict =
      some ("xray", Json.str "FAIL", Json.str "PASS") ∧
    (compute_calibration_drift [gradeEscalated.to_dict] none (6/10)
      (7/10)).layer0_vs_layer2_agreement = 0 := by
  refine ⟨?_, ?_, ?_, ?_⟩ <;> with_unfolding_all rfl

/-! ## Claim C6 -/

/-- Updating every binding of one key leaves lookups structurally related:
the found entry is the mapped one. -/
theorem find?_update (acc : List ((String × String) × List Bool))
    (gkey : String × String) (b : Bool) (key : String × String) :
    (acc.map (fun kv => if kv.1 == gkey then (kv.1, kv.2 ++ [b]) else kv)).find?
        (fun kv => kv.1 == key) =
      (acc.find? (fun kv => kv.1 == key)).map
        (fun kv => if kv.1 == gkey then (kv.1, kv.2 ++ [b]) else kv) := by
  rw [List.find?_map]
  have hpf : ((fun kv : (String × String) × List Bool => kv.1 == key) ∘
      (fun kv => if kv.1 == gkey then (kv.1, kv.2 ++ [b]) else kv)) =
      fun kv => kv.1 == key := by
    funext kv
    by_cases h : kv.1 = gkey <;> simp [h]
  rw [hpf]

/-- One grouping step appends the grade's `passed` to exactly its own
pair's trial list. -/
theorem getTrials_runDataStep (acc : List ((String × String) × List Bool))
    (g : Grade) (key : String × String) :
    getTrials (runDataStep acc g) key =
      getTrials acc key ++
        (if (g.task_id, g.model) == key then [g.passed] else []) := by
  unfold runDataStep getTrials
  by_cases hmem : acc.any (fun kv => kv.1 == (g.task_id, g.model)) = true
  · rw [if_pos hmem, find?_update]
    by_cases hgk : ((g.task_id, g.model) == key) = true
    · have hge : (g.task_id, g.model) = key := eq_of_beq hgk
      cases hf : acc.find? (fun kv => kv.1 == key) with
      | none =>
        exfalso
        rw [List.any_eq_true] at hmem
        obtain ⟨kv, hkv, hbeq⟩ := hmem
        rw [hge] at hbeq
        exact absurd hbeq (by simpa using List.find?_eq_none.mp hf kv hkv)
      | some kv =>
        have hkv1 : (kv.1 == key) = true := by
          simpa using List.find?_some hf
        rw [hge]
        simp [eq_of_beq hkv1]
    · cases hf : acc.find? (fun kv => kv.1 == key) with
      | none => simp [hgk]
      | some kv =>
        have hkv1 : (kv.1 == key) = true := by
          simpa using List.find?_some hf
        have hne : ¬ kv.1 = (g.task_id, g.model) := by
          intro hh
          rw [hh] at hkv1
          exact absurd hkv1 (by simp [hgk])
        simp [hne, hgk]
  · rw [if_neg hmem, List.find?_append]
    by_cases hgk : ((g.task_id, g.model) == key) = true
    · have hge : (g.task_id, g.model) = key := eq_of_beq hgk
      cases hf : acc.find? (fun kv => kv.1 == key) with
      | none => simp [hgk, hge]
      | some kv =>
        exfalso
        have hkv1 : (kv.1 == key) = true := by
          simpa using List.find?_some hf
        apply hmem
        rw [List.any_eq_true]
        exact ⟨kv, List.mem_of_find?_eq_some hf, by rw [hge]; exact hkv1⟩
    · cases hf : acc.find? (fun kv => kv.1 == key) with
      | none => simp [hgk]
      | some kv => simp [hgk]

/-- The trials a grade contributes to a pair's list, as a filter. -/
theorem getTrials_foldl (gs : List Grade)
    (acc : List ((String × String) × List Bool)) (key : String × String) :
    getTrials (gs.foldl runDataStep acc) key =
      getTrials acc key ++ trialsIn gs key := by
  induction gs generalizing acc with
  | nil => simp [trialsIn]
  | cons g gs ih =>
    rw [List.foldl_cons, ih, getTrials_runDataStep]
    have : trialsIn (g :: gs) key =
        (if (g.task_id, g.model) == key then [g.passed] else []) ++
          trialsIn gs key := by
      unfold trialsIn
      by_cases h : ((g.task_id, g.model) == key) = true <;>
        simp [List.filter_cons, h]
    rw [this, List.append_assoc]

/-- The grouping dict of `detect_saturation` recovers exactly the per-pair
trial lists of the run. -/
theorem getTrials_runData (run : List Grade) (key : String × String) :
    getTrials (runData run) key = trialsIn run key := by
  rw [runData, getTrials_foldl]
  rfl

/-- The backward walk over grouped runs equals the claim's streak over the
raw runs. -/
theorem streakFrom_eq_recentStreak (l : List (List Grade))
    (key : String × String) :
    streakFrom key (l.map runData) = recentStreak key l := by
  induction l with
  | nil => rfl
  | cons run rest ih =>
    rw [List.map_cons]
    show streakFrom key (runData run :: rest.map runData) = _
    rw [streakFrom, recentStreak, getTrials_runData, ih]

/-- The per-pair loop body of `detect_saturation` decides exactly the
claim's model-saturation predicate. -/
theorem modelEntry_iff_spec (runs : List (List Grade)) (threshold : ℚ)
    (k : Nat) (key : String × String) :
    ((modelEntry (runs.map runData) threshold k key).1 = true ↔
      modelSaturatedSpec runs threshold k key) ∧
    (modelEntry (runs.map runData) threshold k key).2 =
      aggregateRate runs key := by
  have htr : (runs.map runData).flatMap (fun rd => getTrials rd key) =
      runs.flatMap (fun run => trialsIn run key) := by
    rw [List.flatMap_map]
    exact List.flatMap_congr (fun run _ => getTrials_runData run key)
  have hst : streakFrom key (runs.map runData).reverse =
      recentStreak key runs.reverse := by
    rw [← List.map_reverse, streakFrom_eq_recentStreak]
  by_cases hemp : (runs.flatMap (fun run => trialsIn run key)).isEmpty = true
  · have hstreak0 : recentStreak key runs.reverse = 0 := by
      cases hrev : runs.reverse with
      | nil => rfl
      | cons run rest =>
        have hmem : run ∈ runs := by
          have : run ∈ runs.reverse := by rw [hrev]; exact List.mem_cons_self _ _
          simpa using this
        have hnil : trialsIn run key = [] := by
          rw [List.isEmpty_iff, List.flatMap_eq_nil_iff] at hemp
          exact hemp run hmem
        rw [recentStreak, hnil]
        simp
    simp [modelEntry, modelSaturatedSpec, aggregateRate, htr, hst, hemp,
      hstreak0, ge_iff_le]
  · simp [modelEntry, modelSaturatedSpec, aggregateRate, htr, hst, hemp,
      ge_iff_le]

/-- Inserting into a sorted list is a permutation of consing. -/
theorem insertSortedBy_perm {α : Type} (le : α → α → Bool) (x : α)
    (l : List α) : List.Perm (insertSortedBy le x l) (x :: l) := by
  induction l with
  | nil => rfl
  | cons y ys ih =>
    simp only [insertSortedBy]
    by_cases h : le x y = true
    · simp [h]
    · simp only [h, if_false]
      exact ((ih.cons y).trans (List.Perm.swap x y ys))

/-- The model of Python `sorted` permutes its input. -/
theorem sortBy_perm {α : Type} (le : α → α → Bool) (l : List α) :
    List.Perm (sortBy le l) l := by
  induction l with
  | nil => rfl
  | cons x xs ih =>
    exact (insertSortedBy_perm le x (sortBy le xs)).trans (ih.cons x)

/-- Deduplication preserves membership. -/
theorem mem_distinctStr (l : List String) (a : String) :
    a ∈ distinctStr l ↔ a ∈ l := by
  suffices h : ∀ acc, a ∈ l.foldl
      (fun acc x => if acc.any (fun y => x == y) then acc else acc ++ [x])
      acc ↔ a ∈ acc ∨ a ∈ l by
    simpa [distinctStr] using h []
  induction l with
  | nil => simp
  | cons x xs ih =>
    intro acc
    rw [List.foldl_cons]
    by_cases hx : acc.any (fun y => x == y) = true
    · rw [if_pos hx, ih]
      constructor
      · rintro (h | h)
        · exact Or.inl h
        · exact Or.inr (List.mem_cons_of_mem x h)
      · rintro (h | h)
        · exact Or.inl h
        · rcases List.mem_cons.mp h with h | h
          · subst h
            rw [List.any_eq_true] at hx
            obtain ⟨y, hy, hxy⟩ := hx
            exact Or.inl (eq_of_beq hxy ▸ hy)
          · exact Or.inr h
    · rw [if_neg hx, ih]
      simp only [List.mem_append, List.mem_singleton, List.mem_cons]
      tauto

/-- Every grade's (task, model) pair appears among the keys of its run's
grouping dict. -/
theorem key_mem_runData (run : List Grade) (g : Grade) (hg : g ∈ run) :
    ∃ e ∈ runData run, e.1 = (g.task_id, g.model) := by
  have htr : getTrials (runData run) (g.task_id, g.model) =
      trialsIn run (g.task_id, g.model) := getTrials_runData _ _
  have hne : trialsIn run (g.task_id, g.model) ≠ [] := by
    unfold trialsIn
    simp only [ne_eq, List.map_eq_nil_iff, List.filter_eq_nil_iff, not_forall]
    exact ⟨g, hg, by simp⟩
  cases hf : (runData run).find? (fun kv => kv.1 == (g.task_id, g.model)) with
  | none =>
    exfalso
    apply hne
    rw [← htr]
    unfold getTrials
    rw [hf]
  | some e =>
    have he1 : (e.1 == (g.task_id, g.model)) = true := by
      simpa using List.find?_some hf
    exact ⟨e, List.mem_of_find?_eq_some hf, eq_of_beq he1⟩

/-- C6 (amended): in `detect_saturation`, a (task, model) pair is
model-saturated iff its most-recent consecutive streak of fully-passing
runs reaches `min_consecutive_runs` and its all-time aggregate pass rate
reaches `threshold`; but a task's saturation flag (and hence its listing
in `needs_evolution`) demands this of EVERY model appearing anywhere in
the input runs — not only the models tested on that task.  Models never
run on the task enter its table with streak 0 and rate 0 and so block
saturation. -/
theorem C6_amended_saturation_policy (runs : List (List Grade))
    (threshold : ℚ) (k : Nat) :
    ∀ ts ∈ (detect_saturation runs threshold k).task_details,
      (∀ m b, (m, b) ∈ ts.models_saturated →
        (b = true ↔ modelSaturatedSpec runs threshold k (ts.task_id, m))) ∧
      (∀ run ∈ runs, ∀ g ∈ run, ∃ b, (g.model, b) ∈ ts.models_saturated) ∧
      (ts.saturated = true ↔ ts.models_saturated ≠ [] ∧
        ∀ mb ∈ ts.models_saturated, mb.2 = true) ∧
      (ts.task_id ∈ (detect_saturation runs threshold k).needs_evolution ↔
        ts.saturated = true) := by
  intro ts hts
  have hne : (runs.map runData).isEmpty = false := by
    cases runs with
    | nil =>
      exfalso
      simp [detect_saturation] at hts
    | cons run0 rest => rfl
  have hdet : detect_saturation runs threshold k =
        (let runsD := runs.map runData
         let all_keys := runsD.flatMap (fun rd => rd.map (fun kv => kv.1))
         let all_task_ids := sortBy pyStrLe (distinctStr (all_keys.map (fun kk => kk.1)))
         let all_models := sortBy pyStrLe (distinctStr (all_keys.map (fun kk => kk.2)))
         let task_details := all_task_ids.map
           (taskSaturationFor runsD all_models threshold k)
         let saturated_ids :=
           (task_details.filter (fun t2 => t2.saturated)).map (fun t2 => t2.task_id)
         let per_modality := task_details.foldl addSatModality []
         let total_tasks := all_task_ids.length
         let saturated_count := saturated_ids.length
         { total_tasks := total_tasks
           saturated_tasks := saturated_count
           saturation_rate :=
             if total_tasks ≠ 0 then (saturated_count : ℚ) / (total_tasks : ℚ)
             else 0
           per_modality := per_modality
           per_difficulty := []
           task_details := task_details
           needs_evolution := saturated_ids
           threshold := threshold
           min_consecutive_runs := k }) := by
    rw [detect_saturation]
    rw [if_neg (by rw [hne]; simp)]
  rw [hdet] at hts ⊢
  simp only [] at hts ⊢
  obtain ⟨t, ht, hts2⟩ := List.mem_map.mp hts
  have htsid : ts.task_id = t := by rw [← hts2]; rfl
  refine ⟨?_, ?_, ?_, ?_⟩
  · intro m b hmb
    rw [← hts2] at hmb
    unfold taskSaturationFor at hmb
    simp only [List.map_map, List.mem_map] at hmb
    obtain ⟨m2, hm2, heq⟩ := hmb
    have hm : m2 = m := congrArg Prod.fst heq
    subst hm
    have hb : (modelEntry (runs.map runData) threshold k (t, m2)).1 = b :=
      congrArg Prod.snd heq
    rw [← hb, htsid]
    exact (modelEntry_iff_spec runs threshold k (t, m2)).1
  · intro run hrun g hg
    obtain ⟨e, he, hekey⟩ := key_mem_runData run g hg
    have hmodel : g.model ∈ sortBy pyStrLe (distinctStr
        (((runs.map runData).flatMap (fun rd => rd.map (fun kv => kv.1))).map
          (fun kk => kk.2))) := by
      rw [(sortBy_perm _ _).mem_iff, mem_distinctStr]
      rw [List.mem_map]
      refine ⟨e.1, ?_, by rw [hekey]⟩
      rw [List.mem_flatMap]
      exact ⟨runData run, List.mem_map_of_mem runData hrun,
        List.mem_map_of_mem _ he⟩
    refine ⟨(modelEntry (runs.map runData) threshold k
      (t, g.model)).1, ?_⟩
    rw [← hts2]
    unfold taskSaturationFor
    simp only [List.map_map, List.mem_map]
    exact ⟨g.model, hmodel, rfl⟩
  · rw [← hts2]
    unfold taskSaturationFor
    simp only [List.map_map]
    simp [List.all_eq_true, Bool.and_eq_true, Bool.not_eq_true',
      List.isEmpty_eq_false]
  · constructor
    · intro hmem
      rw [List.mem_map] at hmem
      obtain ⟨ts2, hts2mem, htid⟩ := hmem
      rw [List.mem_filter] at hts2mem
      obtain ⟨hts2mem, hsat2⟩ := hts2mem
      obtain ⟨t2, ht2, hts2eq⟩ := List.mem_map.mp hts2mem
      have ht2id : t2 = ts.task_id := by
        rw [← htid, ← hts2eq]
        rfl
      have hts2ts : ts2 = ts := by
        rw [← hts2eq, ht2id, htsid, hts2]
      rw [hts2ts] at hsat2
      exact hsat2
    · intro hsat
      rw [List.mem_map]
      refine ⟨ts, ?_, rfl⟩
      rw [List.mem_filter]
      exact ⟨hts, hsat⟩

/-- Concrete instantiation of the amended C6: on the two-model fixture the
(T2, M1) pair is model-saturated in the claim's sense. -/
theorem C6_amended_saturation_policy_witness :
    modelSaturatedSpec runsTwoModels (95/100) 3 ("T2", "M1") :=
  ((C6_amended_saturation_policy runsTwoModels (95/100) 3
      ⟨"T2", [("M1", true), ("M2", false)], [("M1", 1), ("M2", 0)], 0, false⟩
      (by with_unfolding_all decide)).1 "M1" true
    (by with_unfolding_all decide)).mp rfl

/-- C6 counterexample: with three runs in which model M1 passes tasks T1
and T2 while model M2 is only ever run on T1, every model actually tested
on T2 (just M1) is model-saturated, yet T2 is not listed in
`needs_evolution` — the code requires the never-tested M2 as well. -/
theorem C6_counterexample :
    (detect_saturation runsTwoModels (95/100) 3).needs_evolution = ["T1"] ∧
    ((detect_saturation runsTwoModels (95/100) 3).task_details.find?
      (fun ts => ts.task_id == "T2")).map (fun ts => ts.models_saturated) =
      some [("M1", true), ("M2", false)] ∧
    runsTwoModels.all (fun run =>
      run.all (fun g => !(g.task_id == "T2" && g.model == "M2"))) = true := by
  refine ⟨?_, ?_, ?_⟩ <;> with_unfolding_all rfl

/-! ## Claim C7 -/

/-- The recount fold computes, over any initial counts, the filter-based
per-modality and total tallies of the task map. -/
theorem countFor_foldl (s : String) (tasks : List (String × TaskMembership)) :
    ∀ c : SuiteCounts, tasks.foldl (countForStep s) c =
      { xray := c.xray + suiteModalityCount tasks s "xray"
        ct := c.ct + suiteModalityCount tasks s "ct"
        mri := c.mri + suiteModalityCount tasks s "mri"
        ultrasound := c.ultrasound + suiteModalityCount tasks s "ultrasound"
        total := c.total + suiteTotalCount tasks s } := by
  induction tasks with
  | nil =>
    intro c
    simp [suiteModalityCount, suiteTotalCount]
  | cons kv rest ih =>
    intro c
    rw [List.foldl_cons, ih]
    simp only [countForStep, suiteModalityCount, suiteTotalCount,
      List.filter_cons, SuiteCounts.mk.injEq]
    split_ifs <;> simp_all <;> omega

/-- Recounting establishes the specification's counting for one suite. -/
theorem countFor_agrees (tasks : List (String × TaskMembership))
    (s : String) : countsAgree (countFor tasks s) tasks s := by
  rw [countFor, countFor_foldl]
  unfold countsAgree
  refine ⟨by simp, by simp, by simp, by simp, by simp⟩

/-- C7 counterexample: `update_tracking` creates a new capability task but
does not recount, so after it the capability counts (still zero) disagree
with the task map (one xray capability task). -/
theorem C7_counterexample :
    ¬ countsInvariant (update_tracking {}
      [{ task_id := "xray-001", model := "m", passed := true }]) := by
  unfold countsInvariant countsAgree
  with_unfolding_all decide

/-- C7 (amended): the per-modality aggregate counts equal the number of
matching tasks after `apply_promotion` and `apply_retirement` (both call
`_recount_suites`); `update_tracking`, `load` and `save` do not recount,
so the invariant can fail after them. -/
theorem C7_amended_counts_invariant (m : SuiteMembership)
    (task_id now : String) :
    countsInvariant (apply_promotion m task_id now) ∧
    countsInvariant (apply_retirement m task_id now) := by
  constructor <;>
    exact ⟨countFor_agrees _ _, countFor_agrees _ _, countFor_agrees _ _⟩

/-! ## Claim C8 -/

/-- The report built from label pairs: `total_grades` is exactly the given
grade count, and every other field depends only on the pairs. -/
theorem driftFromPairs_report (P : List (String × Json × Json))
    (n1 n2 : Nat) (kt at_ : ℚ) :
    (driftFromPairs P n1 kt at_).total_grades = n1 ∧
    (driftFromPairs P n1 kt at_).layer0_vs_layer2_agreement =
      (driftFromPairs P n2 kt at_).layer0_vs_layer2_agreement ∧
    (driftFromPairs P n1 kt at_).layer0_vs_layer2_kappa =
      (driftFromPairs P n2 kt at_).layer0_vs_layer2_kappa ∧
    (driftFromPairs P n1 kt at_).per_modality =
      (driftFromPairs P n2 kt at_).per_modality ∧
    (driftFromPairs P n1 kt at_).drift_detected =
      (driftFromPairs P n2 kt at_).drift_detected := by
  unfold driftFromPairs
  by_cases hp : (P.map (fun p => p.2.1)).isEmpty = true <;> simp [hp]

/-- C8 counterexample: a grade lacking `judge_result` is excluded from the
comparison, yet `total_grades` still counts it — the report over the single
incomplete grade says 1, not 0, so the exclusion is NOT reflected in a
lower `total_grades`. -/
theorem C8_counterexample :
    driftPair gradeNoJudge = none ∧
    (compute_calibration_drift [gradeNoJudge] none (6/10)
      (7/10)).total_grades = 1 := by
  constructor <;> with_unfolding_all rfl

/-- C8 (amended): grades lacking a truthy `pattern_result` or
`judge_result` are silently excluded from the comparison set and never
raise, but `total_grades` still counts them: inserting such a grade
anywhere raises `total_grades` by exactly one and leaves the agreement,
kappa, per-modality metrics and the drift flag unchanged. -/
theorem C8_amended_incomplete_grades (gs1 gs2 : List GradeDict)
    (g : GradeDict) (kt at_ : ℚ)
    (h : (dictGetD g "pattern_result" (Json.obj [])).truthy = false ∨
      (dictGetD g "judge_result" (Json.obj [])).truthy = false) :
    let r1 := compute_calibration_drift (gs1 ++ g :: gs2) none kt at_
    let r2 := compute_calibration_drift (gs1 ++ gs2) none kt at_
    r1.total_grades = r2.total_grades + 1 ∧
    r1.layer0_vs_layer2_agreement = r2.layer0_vs_layer2_agreement ∧
    r1.layer0_vs_layer2_kappa = r2.layer0_vs_layer2_kappa ∧
    r1.per_modality = r2.per_modality ∧
    r1.drift_detected = r2.drift_detected := by
  intro r1 r2
  have hpair : driftPair g = none := by
    unfold driftPair
    rcases h with h | h <;> simp [h]
  have hfm : (gs1 ++ g :: gs2).filterMap driftPair =
      (gs1 ++ gs2).filterMap driftPair := by
    simp [List.filterMap_append, List.filterMap_cons, hpair]
  by_cases hemp : (gs1 ++ gs2).isEmpty = true
  · have h12 : gs1 = [] ∧ gs2 = [] := by
      rw [List.isEmpty_iff, List.append_eq_nil] at hemp
      exact hemp
    obtain ⟨h1, h2⟩ := h12
    subst h1
    subst h2
    have e1 : r1 = driftFromPairs [] 1 kt at_ := by
      show compute_calibration_drift ([] ++ [g]) none kt at_ = _
      simp only [compute_calibration_drift, List.nil_append]
      rw [if_neg (by simp)]
      simp [List.filterMap_cons, hpair]
    have e2 : r2 = compute_calibration_drift [] none kt at_ := rfl
    rw [e1, e2]
    exact ⟨rfl, rfl, rfl, rfl, rfl⟩
  · have hemp1 : (gs1 ++ g :: gs2).isEmpty = false := by
      rcases gs1 with _ | ⟨a, l⟩ <;> simp
    have e1 : r1 = driftFromPairs ((gs1 ++ gs2).filterMap driftPair)
        ((gs1 ++ gs2).length + 1) kt at_ := by
      show compute_calibration_drift (gs1 ++ g :: gs2) none kt at_ = _
      simp only [compute_calibration_drift]
      rw [if_neg (by simp [hemp1]), hfm]
      have : (gs1 ++ g :: gs2).length = (gs1 ++ gs2).length + 1 := by
        simp only [List.length_append, List.length_cons]
        omega
      rw [this]
    have e2 : r2 = driftFromPairs ((gs1 ++ gs2).filterMap driftPair)
        ((gs1 ++ gs2).length) kt at_ := by
      show compute_calibration_drift (gs1 ++ gs2) none kt at_ = _
      simp only [compute_calibration_drift]
      rw [if_neg (by simp [hemp])]
    rw [e1, e2]
    have hrep := driftFromPairs_report ((gs1 ++ gs2).filterMap driftPair)
      ((gs1 ++ gs2).length + 1) ((gs1 ++ gs2).length) kt at_
    have htot := (driftFromPairs_report ((gs1 ++ gs2).filterMap driftPair)
      ((gs1 ++ gs2).length) 0 kt at_).1
    exact ⟨by rw [hrep.1, htot], hrep.2.1, hrep.2.2.1, hrep.2.2.2.1,
      hrep.2.2.2.2⟩

/-- Concrete instantiation of the amended C8 on the judge-less grade. -/
theorem C8_amended_incomplete_grades_witness :
    (compute_calibration_drift [gradeNoJudge] none (6/10)
        (7/10)).total_grades =
      (compute_calibration_drift [] none (6/10) (7/10)).total_grades + 1 :=
  (C8_amended_incomplete_grades [] [] gradeNoJudge (6/10) (7/10)
    (Or.inr (by with_unfolding_all rfl))).1

/-! ## Claim C9 -/

/-- Lookup in an association list with pairwise-distinct keys is invariant
under permutation. -/
theorem find_entry_perm {β : Type} (k : String) :
    ∀ {l l2 : List (String × β)}, List.Perm l l2 →
      (l.map Prod.fst).Nodup →
      l.find? (fun kv => kv.1 == k) = l2.find? (fun kv => kv.1 == k) := by
  intro l l2 hp
  induction hp with
  | nil => intro _; rfl
  | cons x hp ih =>
    intro nd
    by_cases hx : (x.1 == k) = true
    · simp [List.find?, hx]
    · simp only [List.find?, Bool.eq_false_iff.mpr hx]
      refine ih ?_
      exact (List.nodup_cons.mp (by simpa using nd)).2
  | swap x y l =>
    intro nd
    have hyx : ¬ y.1 = x.1 := by
      have hnd : (y.1 :: x.1 :: l.map Prod.fst).Nodup := by simpa using nd
      intro h
      exact (List.nodup_cons.mp hnd).1 (h ▸ List.mem_cons_self _ _)
    by_cases hy : (y.1 == k) = true <;> by_cases hx : (x.1 == k) = true
    · exact absurd ((eq_of_beq hy).trans (eq_of_beq hx).symm) hyx
    · simp [List.find?, hy, Bool.eq_false_iff.mpr hx]
    · simp [List.find?, hx, Bool.eq_false_iff.mpr hy]
    · simp [List.find?, Bool.eq_false_iff.mpr hx, Bool.eq_false_iff.mpr hy]
  | trans h1 h2 ih1 ih2 =>
    intro nd
    refine (ih1 nd).trans (ih2 ?_)
    exact ((h1.map Prod.fst).nodup_iff).mp nd

/-- C9: saving a suite membership and loading it back reproduces every
task's membership record — suite assignment, both consecutive counters and
the timestamps — for every task id (keys are unique, as in a Python dict). -/
theorem C9_save_load_round_trip (m : SuiteMembership)
    (h : (m.tasks.map Prod.fst).Nodup) (t : String) :
    tasksGet (load_suite_membership (save_suite_membership m)).tasks t =
      tasksGet m.tasks t := by
  have hload : (load_suite_membership (save_suite_membership m)).tasks =
      sortBy (fun a b => pyStrLe a.1 b.1) m.tasks := by
    show List.map _ _ = _
    rw [show (fun kv : String × TaskMembership =>
      (kv.1, ({ suite := kv.2.suite
                consecutive_all_pass := kv.2.consecutive_all_pass
                consecutive_any_fail := kv.2.consecutive_any_fail
                promoted_date := kv.2.promoted_date
                retired_date := kv.2.retired_date } : TaskMembership))) = id
      from rfl]
    exact List.map_id _
  rw [hload]
  have hnd : ((sortBy (fun a b => pyStrLe a.1 b.1) m.tasks).map
      Prod.fst).Nodup :=
    (((sortBy_perm (fun a b => pyStrLe a.1 b.1) m.tasks).map
      Prod.fst).nodup_iff).mpr h
  have hfind := find_entry_perm t
    (sortBy_perm (fun a b => pyStrLe a.1 b.1) m.tasks) hnd
  unfold tasksGet
  rw [hfind]

/-- Concrete instantiation of C9 on a two-task membership. -/
theorem C9_save_load_round_trip_witness :
    tasksGet (load_suite_membership
        (save_suite_membership membershipTwoTasks)).tasks "CT-001" =
      tasksGet membershipTwoTasks.tasks "CT-001" ∧
    tasksGet membershipTwoTasks.tasks "CT-001" =
      some { suite := "regression", consecutive_all_pass := 0,
             consecutive_any_fail := 2,
             promoted_date := some "2026-02-28T00:00:00+00:00",
             retired_date := none } :=
  ⟨C9_save_load_round_trip membershipTwoTasks (by with_unfolding_all decide)
      "CT-001",
   by with_unfolding_all rfl⟩

/-- Concrete instantiation of the amended C3 on the class-"X" response. -/
theorem C3_amended_parse_degradation_witness :
    (parse_judge_response (some (Json.obj [("failure_class", Json.str "X")]))
      "jm" "raw").map (fun r => r.failure_class) = Except.ok Json.null :=
  C3_amended_parse_degradation.2 [("failure_class", Json.str "X")] "jm" "raw"
    rfl rfl
    (by intro n hn
        fin_cases hn <;> exact ⟨0, rfl⟩)

end RadSlice
